import Mathlib

/-!
Verification of the MBMRL meta-learning core.

Shallow embedding of the algorithmic core of the repository
(mbmrl.py: rollout aggregation, the adaptation engine, trajectory
collection, the bounded dataset, window sampling, the meta-update
sample handling, evaluation, and the train/debug iteration
structure).

External collaborators (the dynamics network, the MPC controller, gym
tasks, numpy randomness, the logger) are modelled as abstract data:
the network together with its autograd gradients appears as an
abstract gradient oracle, tasks as deterministic transition systems,
the controller as a planning function, and random draws as explicit
oracle inputs or as probability mass functions.  Machine floats are
modelled as rationals.
-/

/-- A numeric vector (one state or action row of a torch tensor). -/
abbrev Vec := List ℚ

/-- A flattened parameter vector standing for the ordered values of
the model parameter dictionary (theta or an adapted copy). -/
abbrev Params := List ℚ

/-- A rollout: the ordered triple of equal-length sequences
[[s1..sn], [a1..an], [s'1..s'n]] maintained by _aggregate_rollout. -/
structure Rollout where
  states : List Vec
  actions : List Vec
  next_states : List Vec
deriving DecidableEq, Repr

/-- The Python empty rollout [] before the first transition. -/
def Rollout.emptyR : Rollout := ⟨[], [], []⟩

/-- _aggregate_rollout: append one (state, action, next_state)
transition at the right end of each of the three sequences. -/
def aggregate_rollout (r : Rollout) (s a s2 : Vec) : Rollout :=
  ⟨r.states ++ [s], r.actions ++ [a], r.next_states ++ [s2]⟩

/-- Python slice xs[-M:]; for M = 0 this is the whole list (the
Python quirk that r[-0:] equals r[:]). -/
def pySliceLast (M : ℕ) (xs : List Vec) : List Vec :=
  if M = 0 then xs else xs.drop (xs.length - M)

/-- past_traj = [r[-M:] for r in rollout]: the trailing window of the
in-progress rollout handed to the adaptation engine.  The Python test
(past_traj == []) holds exactly when the rollout itself is still the
empty list, i.e. when states is empty here. -/
def pastWindowSlice (M : ℕ) (r : Rollout) : Rollout :=
  ⟨pySliceLast M r.states, pySliceLast M r.actions, pySliceLast M r.next_states⟩

/-- [t[:M] for t in traj]: the first M steps of a sampled window. -/
def rolloutTake (M : ℕ) (r : Rollout) : Rollout :=
  ⟨r.states.take M, r.actions.take M, r.next_states.take M⟩

/-- The last K steps of a sampled M+K window (its query part, in the
words of the spec data model). -/
def rolloutDropM (M : ℕ) (r : Rollout) : Rollout :=
  ⟨r.states.drop M, r.actions.drop M, r.next_states.drop M⟩

/-- Abstract differentiable-loss collaborator: gradL p w is the
autograd gradient, with respect to the parameter vector p, of the
unscaled loss_func term evaluated on window w (the network forward
pass, the state + delta prediction and the pointwise loss are folded
into this oracle; the surrounding code only multiplies the loss by a
scalar before differentiating, and autograd gradients are linear in
that scalar, which is what the scaleVec factor below records). -/
structure GradModel where
  gradL : Params → Rollout → Params

/-- Multiply a gradient vector by the scalar loss factor. -/
def scaleVec (c : ℚ) (v : Params) : Params := v.map (fun x => c * x)

/-- One gradient-descent assignment of the adaptation loops: every
entry is (base value) - phi * (scaled gradient entry); both the
serial and the worker loop re-read the base values of theta on every
pass (val is drawn from theta.named_parameters each time). -/
def gradStepFrom (theta : Params) (phi : ℚ) (d : Params) : Params :=
  List.zipWith (fun v g => v - phi * g) theta d

/-- One pass of either adaptation loop: differentiate the scaled loss
at the current adapted parameters cur and assign from the base values
of theta. -/
def adaptStep (g : GradModel) (scale phi : ℚ) (theta : Params)
    (traj : Rollout) (cur : Params) : Params :=
  gradStepFrom theta phi (scaleVec scale (g.gradL cur traj))

/-- The for-range(adaptation_update_num) refinement loop shared by
both adaptation code paths. -/
def adaptIter (g : GradModel) (scale phi : ℚ) (theta : Params)
    (traj : Rollout) : ℕ → Params → Params
  | 0, cur => cur
  | n + 1, cur => adaptIter g scale phi theta traj n (adaptStep g scale phi theta traj cur)

/-- MBMRL._adaptation_update together with the gradient of
MBMRL._compute_adaptation_loss: on an empty window return none;
otherwise one first step from theta, then adaptation_update_num
further steps, each differentiating the loss (scaled by
loss_scale / len(state)) at the current adapted parameters. -/
def adaptation_update (g : GradModel) (loss_scale phi : ℚ)
    (adaptation_update_num : ℕ) (theta : Params) (traj : Rollout) : Option Params :=
  if traj.states.isEmpty then none
  else
    some (adaptIter g (loss_scale / (traj.states.length : ℚ)) phi theta traj
      adaptation_update_num
      (adaptStep g (loss_scale / (traj.states.length : ℚ)) phi theta traj theta))

/-- The adaptation block of _collect_traj_per_thread: identical loop
shape, but the loss there is loss_scale * loss_func(...), without the
1 / len division of MBMRL._compute_adaptation_loss. -/
def worker_adaptation_update (g : GradModel) (loss_scale phi : ℚ)
    (adaptation_update_num : ℕ) (theta : Params) (traj : Rollout) : Option Params :=
  if traj.states.isEmpty then none
  else
    some (adaptIter g loss_scale phi theta traj adaptation_update_num
      (adaptStep g loss_scale phi theta traj theta))

/-- C3 concrete gadget: a gradient oracle with constant gradient 1. -/
def constGradOne : GradModel := ⟨fun _ _ => [1]⟩

/-- C3 concrete gadget: a two-step window. -/
def twoStepWindow : Rollout := ⟨[[0], [0]], [[0], [0]], [[0], [0]]⟩

/-- C3 counterexample: on a window of two transitions with unit
loss scale, unit adaptation rate and zero extra updates, the parallel
worker adaptation (loss scaled by loss_scale) produces different
specialized parameters than the serial adaptation engine (loss scaled
by loss_scale / len(window)): [-1] against [-1/2].  This refutes the
claim that the worker computes the same adaptation for every input. -/
theorem c3_worker_scale_mismatch :
    worker_adaptation_update constGradOne 1 1 0 [0] twoStepWindow ≠
      adaptation_update constGradOne 1 1 0 [0] twoStepWindow := by
  norm_num [worker_adaptation_update, adaptation_update, adaptIter, adaptStep,
    gradStepFrom, scaleVec, constGradOne, twoStepWindow]

/-- C3 (amended): a parallel-collection worker runs the same
adaptation loop as the serial adaptation engine except that it scales
the loss by loss_scale alone, omitting the serial path's 1/len(window)
factor; consequently its specialized parameters agree with the serial
path exactly on windows of at most one transition (empty: both none;
one transition: the scales coincide). -/
theorem c3_worker_matches_serial_on_unit_window (g : GradModel)
    (loss_scale phi : ℚ) (n : ℕ) (theta : Params) (traj : Rollout)
    (h : traj.states.length ≤ 1) :
    worker_adaptation_update g loss_scale phi n theta traj =
      adaptation_update g loss_scale phi n theta traj := by
  rcases traj with ⟨sts, acs, nss⟩
  match sts, h with
  | [], _ =>
    simp [worker_adaptation_update, adaptation_update]
  | [v], _ =>
    simp [worker_adaptation_update, adaptation_update]

/-- C3 witness: on a concrete one-transition window the hypothesis
holds and worker and serial adaptation agree. -/
theorem c3_witness :
    (Rollout.mk [[5]] [[0]] [[5]]).states.length ≤ 1 ∧
      worker_adaptation_update constGradOne 3 1 2 [0] ⟨[[5]], [[0]], [[5]]⟩ =
        adaptation_update constGradOne 3 1 2 [0] ⟨[[5]], [[0]], [[5]]⟩ :=
  ⟨by simp, c3_worker_matches_serial_on_unit_window constGradOne 3 1 2 [0] _ (by simp)⟩

/-- Abstract differentiable-loss collaborator extended with the loss
value itself (for the places where the code uses the scalar loss, not
just its gradient). -/
structure LossModel extends GradModel where
  lossL : Params → Rollout → ℚ

/-- MBMRL._compute_adaptation_loss with the loss value abstracted:
loss_scale / len(state) times the loss of the model evaluated under
new_theta when present, else under theta. -/
def compute_adaptation_loss (L : LossModel) (loss_scale : ℚ) (theta : Params)
    (traj : Rollout) (new_theta : Option Params) : ℚ :=
  loss_scale / (traj.states.length : ℚ) * L.lossL (new_theta.getD theta) traj

/-- The per-sample body of the adaptation phase of MBMRL.train (and
MBMRL.debug): traj = _sample_traj(); adapt on [t[:M] for t in traj];
then new_loss = _compute_adaptation_loss on [t[:M] for t in traj]
under the adapted parameters. -/
def metaSampleLoss (L : LossModel) (loss_scale phi : ℚ) (nA M : ℕ)
    (theta : Params) (traj : Rollout) : ℚ :=
  compute_adaptation_loss L loss_scale theta (rolloutTake M traj)
    (adaptation_update L.toGradModel loss_scale phi nA theta (rolloutTake M traj))

/-- The meta-update sample handling as the spec data model words it:
adapt on the first M steps, but compute the post-adaptation loss on
the K-step query tail of the window (its last K steps).  Written for
comparison with metaSampleLoss, which embeds the source. -/
def metaSampleLossQuerySpec (L : LossModel) (loss_scale phi : ℚ) (nA M : ℕ)
    (theta : Params) (traj : Rollout) : ℚ :=
  compute_adaptation_loss L loss_scale theta (rolloutDropM M traj)
    (adaptation_update L.toGradModel loss_scale phi nA theta (rolloutTake M traj))

/-- C2 concrete gadget: loss = sum of the first entries of the window
states, gradient 0. -/
def headSumLoss : LossModel :=
  { gradL := fun _ _ => [0], lossL := fun _ r => (r.states.map (fun v => v.headD 0)).sum }

/-- C2 concrete gadget: an M+K window with M = 1, K = 1 whose
adaptation half and query half carry different state values. -/
def splitWindow : Rollout := ⟨[[1], [3]], [[0], [0]], [[0], [0]]⟩

/-- C2 counterexample: with M = 1, K = 1 on a concrete sampled
window, the loss the code feeds to the outer update (computed on the
first M steps, value 1) differs from the loss computed on the K-step
query tail (value 3).  This refutes the claim that the
post-adaptation loss driving the meta gradient is computed on the
query window. -/
theorem c2_outer_loss_not_on_query_window :
    metaSampleLoss headSumLoss 1 1 0 1 [0] splitWindow ≠
      metaSampleLossQuerySpec headSumLoss 1 1 0 1 [0] splitWindow := by
  norm_num [metaSampleLoss, metaSampleLossQuerySpec, compute_adaptation_loss,
    adaptation_update, adaptIter, adaptStep, gradStepFrom, scaleVec,
    rolloutTake, rolloutDropM, headSumLoss, splitWindow]

/-- C2 (amended): in every meta-update sample the sampled M+K window
is truncated to its first M steps, which drive both the adapting
gradient and the post-adaptation loss of the outer update; the K-step
query tail is never read, so the sample loss depends only on the
first M steps of the window. -/
theorem c2_outer_loss_uses_first_m_only (L : LossModel) (loss_scale phi : ℚ)
    (nA M : ℕ) (theta : Params) (traj traj2 : Rollout)
    (h : rolloutTake M traj = rolloutTake M traj2) :
    metaSampleLoss L loss_scale phi nA M theta traj =
      metaSampleLoss L loss_scale phi nA M theta traj2 := by
  unfold metaSampleLoss
  rw [h]

/-- C2 witness: two concrete windows agreeing on their first step but
not on their query tail get the same sample loss. -/
theorem c2_witness :
    rolloutTake 1 splitWindow = rolloutTake 1 ⟨[[1], [7]], [[0], [0]], [[0], [0]]⟩ ∧
      metaSampleLoss headSumLoss 1 1 0 1 [0] splitWindow =
        metaSampleLoss headSumLoss 1 1 0 1 [0] ⟨[[1], [7]], [[0], [0]], [[0], [0]]⟩ :=
  ⟨by simp [rolloutTake, splitWindow],
    c2_outer_loss_uses_first_m_only headSumLoss 1 1 0 1 [0] splitWindow _
      (by simp [rolloutTake, splitWindow])⟩

/-- Entrywise vector sum (pred_next_state = state + delta_state). -/
def vecAdd (a b : Vec) : Vec := List.zipWith (fun x y => x + y) a b

/-- Sum of squared entry differences of two rows. -/
def vecSqErr (a b : Vec) : ℚ := (List.zipWith (fun x y => (x - y) ^ 2) a b).sum

/-- Modelled from the spec: tools.utils.loss_func is not under src/.
Per the spec loss-evaluator contract it supports at least a
mean-squared-error kind and a negative-log-likelihood kind with a std
parameter, and an unknown kind is an error.  The numeric formulas are
placeholders faithful to the kinds the spec names; the claims settled
against this only depend on which kinds are accepted. -/
def loss_func (kind : String) (pred actual : List Vec) (std : ℚ) : Except String ℚ :=
  if kind = "mse" then .ok ((List.zipWith vecSqErr pred actual).sum)
  else if kind = "nll" then .ok ((List.zipWith vecSqErr pred actual).sum / (2 * std ^ 2))
  else .error ("unknown loss kind")

/-- The configuration fields of MBMRL.__init__ that the claims touch.
The optimizers, logger and timing fields are external collaborators
and are not part of this record. -/
structure MBMRLState where
  loss_type : String
  loss_scale : ℚ
  pred_std : ℚ
  dataset_maxlen : ℕ
  dataset : List Rollout
  M : ℕ
  K : ℕ
  rollout_len : ℕ
  rollout_num : ℕ
  adaptation_update_num : ℕ
  eval_sample_num : ℤ
  num_threads : ℤ
  phi : ℚ
deriving DecidableEq, Repr

/-- MBMRL.__init__: converts and assigns the configuration.  The
source constructor contains no validation of loss_type or of any
other field, so construction always succeeds; the Except layer
records that no code path raises there. -/
def MBMRL_init (loss_type : String) (loss_scale pred_std : ℚ) (dataset_size : ℕ)
    (M K rollout_len rollout_num adaptation_update_num : ℕ)
    (eval_sample_num num_threads : ℤ) (phi : ℚ) : Except String MBMRLState :=
  .ok { loss_type := loss_type, loss_scale := loss_scale, pred_std := pred_std,
        dataset_maxlen := dataset_size, dataset := [],
        M := M, K := K, rollout_len := rollout_len,
        rollout_num := rollout_num, adaptation_update_num := adaptation_update_num,
        eval_sample_num := eval_sample_num, num_threads := num_threads, phi := phi }

/-- MBMRL._compute_adaptation_loss with the loss kind resolved
through loss_func (the network forward pass is the abstract
collaborator net): pred_next_state = state + net(params, window), and
the loss is loss_scale / len(state) * loss_func(loss_type, pred,
next_state, std).  An unknown loss kind surfaces here, at call
time. -/
def compute_adaptation_loss_checked (st : MBMRLState)
    (net : Params → Rollout → List Vec) (theta : Params) (traj : Rollout)
    (new_theta : Option Params) : Except String ℚ :=
  match loss_func st.loss_type
      (List.zipWith vecAdd traj.states (net (new_theta.getD theta) traj))
      traj.next_states st.pred_std with
  | .ok l => .ok (st.loss_scale / (traj.states.length : ℚ) * l)
  | .error e => .error e

/-- C4 concrete gadget: the state MBMRL.__init__ builds for an
unrecognized loss kind. -/
def c4State : MBMRLState :=
  { loss_type := "bogus_loss", loss_scale := 1, pred_std := 1,
    dataset_maxlen := 10, dataset := [],
    M := 2, K := 1, rollout_len := 32, rollout_num := 4,
    adaptation_update_num := 1, eval_sample_num := 1, num_threads := 1, phi := 1 }

/-- C4 concrete gadget: a collaborator network predicting zero
deltas. -/
def zeroNet : Params → Rollout → List Vec := fun _ r => r.states.map (fun _ => [0])

/-- C4 counterexample: constructing MBMRL with the unknown loss kind
does not fail (construction yields the state unchanged), and the
unknown-kind error instead appears at the first loss computation.
This refutes the claim that an unknown loss kind is fatal at
construction/startup validation and never deferred to call time. -/
theorem c4_unknown_kind_accepted_at_init :
    MBMRL_init "bogus_loss" 1 1 10 2 1 32 4 1 1 1 1 = .ok c4State ∧
      compute_adaptation_loss_checked c4State zeroNet [0]
          ⟨[[0]], [[0]], [[0]]⟩ none = .error ("unknown loss kind") := by
  constructor
  · rfl
  · rfl

/-- C4 (amended): for every loss kind outside the supported set,
construction succeeds (the constructor performs no loss-kind
validation), and the error is deferred to the first loss computation,
which fails with the unknown-kind error. -/
theorem c4_unknown_kind_deferred_to_call (kind : String)
    (h1 : kind ≠ "mse") (h2 : kind ≠ "nll")
    (ls std : ℚ) (dsz M K rl rn an : ℕ) (es nt : ℤ) (phi : ℚ)
    (net : Params → Rollout → List Vec) (theta : Params) (traj : Rollout)
    (ntd : Option Params) :
    (MBMRL_init kind ls std dsz M K rl rn an es nt phi).isOk = true ∧
      (∀ st : MBMRLState, MBMRL_init kind ls std dsz M K rl rn an es nt phi = .ok st →
        compute_adaptation_loss_checked st net theta traj ntd =
          .error ("unknown loss kind")) := by
  refine ⟨rfl, fun st hst => ?_⟩
  have hst2 : st.loss_type = kind := by
    cases hst
    rfl
  unfold compute_adaptation_loss_checked loss_func
  rw [hst2, if_neg h1, if_neg h2]

/-- C4 witness: a concrete unsupported kind is accepted by the
constructor and rejected by the first loss computation. -/
theorem c4_witness :
    ("huber" ≠ "mse" ∧ "huber" ≠ "nll") ∧
      ((MBMRL_init "huber" 1 1 10 2 1 32 4 1 1 1 1).isOk = true ∧
        compute_adaptation_loss_checked
          { loss_type := "huber", loss_scale := 1, pred_std := 1,
            dataset_maxlen := 10, dataset := [],
            M := 2, K := 1, rollout_len := 32, rollout_num := 4,
            adaptation_update_num := 1, eval_sample_num := 1,
            num_threads := 1, phi := 1 }
          zeroNet [0] ⟨[[0]], [[0]], [[0]]⟩ none = .error ("unknown loss kind")) :=
  ⟨⟨by decide, by decide⟩,
    ⟨(c4_unknown_kind_deferred_to_call "huber" (by decide) (by decide)
        1 1 10 2 1 32 4 1 1 1 1 zeroNet [0] ⟨[[0]], [[0]], [[0]]⟩ none).1,
      (c4_unknown_kind_deferred_to_call "huber" (by decide) (by decide)
        1 1 10 2 1 32 4 1 1 1 1 zeroNet [0] ⟨[[0]], [[0]], [[0]]⟩ none).2 _ rfl⟩⟩

/-- The last m elements of a list (the contents a bounded deque keeps
after evicting from the left). -/
def takeLastN {α : Type} (m : ℕ) (l : List α) : List α := l.drop (l.length - m)

/-- collections.deque(maxlen) append: add x at the right, evicting
oldest elements at the left down to maxlen. -/
def dequeAppendOne {α : Type} (maxlen : ℕ) (d : List α) (x : α) : List α :=
  takeLastN maxlen (d ++ [x])

/-- deque.extend(xs): append the elements of xs one by one at the
right (self.dataset.extend(rollouts) in MBMRL.train). -/
def dequeExtend {α : Type} (maxlen : ℕ) (d : List α) (xs : List α) : List α :=
  xs.foldl (dequeAppendOne maxlen) d

theorem takeLastN_append_takeLastN {α : Type} (m : ℕ) (a b : List α) :
    takeLastN m (takeLastN m a ++ b) = takeLastN m (a ++ b) := by
  unfold takeLastN
  rcases le_or_lt m b.length with hb | hb
  · have h1 : (a.drop (a.length - m)).length + b.length -
        m = (a.drop (a.length - m)).length + (b.length - m) := by
      simp only [List.length_drop]
      omega
    have h2 : a.length + b.length - m = a.length + (b.length - m) := by omega
    rw [List.length_append, List.length_append, List.length_drop, h2]
    rw [show a.length - (a.length - m) + b.length - m =
      (a.drop (a.length - m)).length + (b.length - m) by simp only [List.length_drop]; omega]
    rw [List.drop_append, List.drop_append]
  · have hidx : (a.drop (a.length - m)).length + b.length - m ≤
        (a.drop (a.length - m)).length := by
      simp only [List.length_drop]
      omega
    have hidx2 : a.length + b.length - m ≤ a.length := by omega
    rw [List.length_append, List.length_append, List.length_drop]
    rw [show a.length - (a.length - m) + b.length - m =
      (a.drop (a.length - m)).length + b.length - m by simp only [List.length_drop]]
    rw [List.drop_append_of_le_length hidx, List.drop_append_of_le_length hidx2]
    rw [List.drop_drop]
    congr 2
    simp only [List.length_drop]
    omega

theorem dequeExtend_takeLastN {α : Type} (maxlen : ℕ) (xs : List α) :
    ∀ d0 : List α, dequeExtend maxlen (takeLastN maxlen d0) xs = takeLastN maxlen (d0 ++ xs) := by
  induction xs with
  | nil =>
    intro d0
    simp [dequeExtend]
  | cons x xs ih =>
    intro d0
    have hstep : dequeExtend maxlen (takeLastN maxlen d0) (x :: xs) =
        dequeExtend maxlen (dequeAppendOne maxlen (takeLastN maxlen d0) x) xs := rfl
    rw [hstep, dequeAppendOne, takeLastN_append_takeLastN, ih (d0 ++ [x])]
    simp

/-- C6: the dataset deque is a bounded-capacity FIFO: starting empty,
after extending by a batch of more rollouts than the capacity, the
length equals the capacity and exactly the oldest surplus rollouts
have been evicted (what remains is the trailing capacity-many
rollouts, in order). -/
theorem c6_dataset_bounded_fifo (maxlen : ℕ) (xs : List Rollout)
    (h : maxlen < xs.length) :
    (dequeExtend maxlen [] xs).length = maxlen ∧
      dequeExtend maxlen [] xs = xs.drop (xs.length - maxlen) := by
  have he : dequeExtend maxlen ([] : List Rollout) xs = takeLastN maxlen xs := by
    have h0 : takeLastN maxlen ([] : List Rollout) = [] := by simp [takeLastN]
    have := dequeExtend_takeLastN maxlen xs ([] : List Rollout)
    rw [h0] at this
    simpa using this
  refine ⟨?_, by rw [he]; rfl⟩
  rw [he]
  simp only [takeLastN, List.length_drop]
  omega

/-- C6 concrete gadgets: three distinguishable rollouts. -/
def rollA : Rollout := ⟨[[1]], [[1]], [[1]]⟩

def rollB : Rollout := ⟨[[2]], [[2]], [[2]]⟩

def rollC : Rollout := ⟨[[3]], [[3]], [[3]]⟩

/-- C6 witness: capacity 2, three appended rollouts: the dataset
holds exactly the 2nd and 3rd appended rollouts, in order. -/
theorem c6_witness :
    2 < ([rollA, rollB, rollC] : List Rollout).length ∧
      dequeExtend 2 [] [rollA, rollB, rollC] = [rollB, rollC] := by
  refine ⟨by simp, ?_⟩
  have h := (c6_dataset_bounded_fifo 2 [rollA, rollB, rollC] (by simp)).2
  simpa using h

/-- The pmf of np.random.choice(n): uniform on {0, ..., n-1} (the
numpy collaborator contract). -/
def np_choice_pmf (n : ℕ) (i : ℕ) : ℚ := if i < n then (n : ℚ)⁻¹ else 0

/-- The distribution of start_idx in MBMRL._sample_traj for a source
rollout of length L: np.random.choice(len(rollout[0]) + 1 - M - K). -/
def sample_start_pmf (L M K : ℕ) (i : ℕ) : ℚ := np_choice_pmf (L + 1 - M - K) i

/-- The window slice [r[start_idx : start_idx + M + K] for r in
rollout] taken by MBMRL._sample_traj. -/
def sampleWindow (start M K : ℕ) (r : Rollout) : Rollout :=
  ⟨(r.states.drop start).take (M + K), (r.actions.drop start).take (M + K),
    (r.next_states.drop start).take (M + K)⟩

/-- C7: for a stored rollout of length L with M + K ≤ L, the start
index of _sample_traj is supported exactly on the valid offsets
{0, ..., L - M - K}, with the uniform probability 1/(L - M - K + 1)
on each of them; in particular start_idx + M + K never exceeds L. -/
theorem c7_sample_start_uniform_and_valid (L M K : ℕ) (h : M + K ≤ L) :
    (∀ i : ℕ, sample_start_pmf L M K i ≠ 0 → i + M + K ≤ L) ∧
      (∀ i : ℕ, i + M + K ≤ L → sample_start_pmf L M K i = ((L - M - K + 1 : ℕ) : ℚ)⁻¹) ∧
      (∀ i : ℕ, sample_start_pmf L M K i ≠ 0 ↔ i ≤ L - M - K) := by
  have hn : L + 1 - M - K = L - M - K + 1 := by omega
  have hpos : (0 : ℚ) < ((L - M - K + 1 : ℕ) : ℚ) := by
    exact_mod_cast Nat.succ_pos (L - M - K)
  refine ⟨fun i hi => ?_, fun i hi => ?_, fun i => ?_⟩
  · by_contra hcon
    apply hi
    unfold sample_start_pmf np_choice_pmf
    rw [if_neg (by omega)]
  · unfold sample_start_pmf np_choice_pmf
    rw [hn, if_pos (by omega)]
  · unfold sample_start_pmf np_choice_pmf
    constructor
    · intro hi
      by_contra hcon
      exact hi (if_neg (by omega))
    · intro hi
      rw [hn, if_pos (by omega)]
      exact ne_of_gt (inv_pos.mpr hpos)

/-- C7 witness: with M = 2, K = 1 and a stored rollout of length 5,
a start index is possible exactly when it lies in {0, 1, 2}; index 2
is drawn with probability 1/3 and index 3 is impossible. -/
theorem c7_witness :
    2 + 1 ≤ 5 ∧
      (sample_start_pmf 5 2 1 2 = ((5 - 2 - 1 + 1 : ℕ) : ℚ)⁻¹ ∧
        ¬ sample_start_pmf 5 2 1 3 ≠ 0) :=
  ⟨by decide,
    ⟨(c7_sample_start_uniform_and_valid 5 2 1 (by decide)).2.1 2 (by decide),
      fun hne =>
        absurd (((c7_sample_start_uniform_and_valid 5 2 1 (by decide)).2.2 3).mp hne)
          (by decide)⟩⟩

/-- A gym task as a deterministic transition system over vector
observations: reset yields the start state; step yields
(next_state, reward, done). -/
structure GymTask where
  reset : Vec
  step : Vec → Vec → Vec × ℚ × Bool

/-- The MPC controller collaborator:
plan(theta, state, new_theta_dict_or_none) -> action. -/
structure Controller where
  plan : Params → Option Params → Vec → Vec

/-- The loop state of one in-progress rollout of trajectory
collection: the rollout so far and the current environment state. -/
structure CollectSt where
  rollout : Rollout
  state : Vec
deriving DecidableEq, Repr

/-- One iteration of the while t < rollout_len loop of
MBMRL._collect_traj_serial: adapt on the trailing M-window of the
in-progress rollout, plan under the specialized parameters (or the
base ones when none), step the task, aggregate the transition, and on
done reset the environment state only. -/
def collect_step_serial (g : GradModel) (loss_scale phi : ℚ) (nA M : ℕ)
    (tk : GymTask) (c : Controller) (theta : Params) (st : CollectSt) : CollectSt :=
  let ntd := adaptation_update g loss_scale phi nA theta (pastWindowSlice M st.rollout)
  let a := c.plan theta ntd st.state
  let res := tk.step st.state a
  { rollout := aggregate_rollout st.rollout st.state a res.1,
    state := if res.2.2 then tk.reset else res.1 }

/-- t iterations of the serial collection loop. -/
def collect_serial_steps (g : GradModel) (loss_scale phi : ℚ) (nA M : ℕ)
    (tk : GymTask) (c : Controller) (theta : Params) : ℕ → CollectSt → CollectSt
  | 0, st => st
  | t + 1, st =>
    collect_serial_steps g loss_scale phi nA M tk c theta t
      (collect_step_serial g loss_scale phi nA M tk c theta st)

/-- One iteration of the while t < rollout_len loop of
_collect_traj_per_thread: the same structure as the serial loop, with
the worker's adaptation (loss scaled without the 1/len factor). -/
def collect_step_worker (g : GradModel) (loss_scale phi : ℚ) (nA M : ℕ)
    (tk : GymTask) (c : Controller) (theta : Params) (st : CollectSt) : CollectSt :=
  let ntd := worker_adaptation_update g loss_scale phi nA theta (pastWindowSlice M st.rollout)
  let a := c.plan theta ntd st.state
  let res := tk.step st.state a
  { rollout := aggregate_rollout st.rollout st.state a res.1,
    state := if res.2.2 then tk.reset else res.1 }

/-- t iterations of the worker collection loop. -/
def collect_worker_steps (g : GradModel) (loss_scale phi : ℚ) (nA M : ℕ)
    (tk : GymTask) (c : Controller) (theta : Params) : ℕ → CollectSt → CollectSt
  | 0, st => st
  | t + 1, st =>
    collect_worker_steps g loss_scale phi nA M tk c theta t
      (collect_step_worker g loss_scale phi nA M tk c theta st)

/-- The adaptation window the serial collector hands to the
adaptation engine at (0-indexed) step t of a rollout started in
state init. -/
def serial_window_at (g : GradModel) (loss_scale phi : ℚ) (nA M : ℕ)
    (tk : GymTask) (c : Controller) (theta : Params) (t : ℕ) (init : CollectSt) : Rollout :=
  pastWindowSlice M (collect_serial_steps g loss_scale phi nA M tk c theta t init).rollout

theorem collect_serial_steps_lengths (g : GradModel) (loss_scale phi : ℚ)
    (nA M : ℕ) (tk : GymTask) (c : Controller) (theta : Params) :
    ∀ (t : ℕ) (st : CollectSt),
      (collect_serial_steps g loss_scale phi nA M tk c theta t st).rollout.states.length =
          st.rollout.states.length + t ∧
        (collect_serial_steps g loss_scale phi nA M tk c theta t st).rollout.actions.length =
          st.rollout.actions.length + t ∧
        (collect_serial_steps g loss_scale phi nA M tk c theta t st).rollout.next_states.length =
          st.rollout.next_states.length + t := by
  intro t
  induction t with
  | zero => intro st; simp [collect_serial_steps]
  | succ t ih =>
    intro st
    have h := ih (collect_step_serial g loss_scale phi nA M tk c theta st)
    simp only [collect_serial_steps]
    refine ⟨?_, ?_, ?_⟩
    · rw [h.1]
      simp [collect_step_serial, aggregate_rollout]
      omega
    · rw [h.2.1]
      simp [collect_step_serial, aggregate_rollout]
      omega
    · rw [h.2.2]
      simp [collect_step_serial, aggregate_rollout]
      omega

theorem collect_worker_steps_lengths (g : GradModel) (loss_scale phi : ℚ)
    (nA M : ℕ) (tk : GymTask) (c : Controller) (theta : Params) :
    ∀ (t : ℕ) (st : CollectSt),
      (collect_worker_steps g loss_scale phi nA M tk c theta t st).rollout.states.length =
          st.rollout.states.length + t ∧
        (collect_worker_steps g loss_scale phi nA M tk c theta t st).rollout.actions.length =
          st.rollout.actions.length + t ∧
        (collect_worker_steps g loss_scale phi nA M tk c theta t st).rollout.next_states.length =
          st.rollout.next_states.length + t := by
  intro t
  induction t with
  | zero => intro st; simp [collect_worker_steps]
  | succ t ih =>
    intro st
    have h := ih (collect_step_worker g loss_scale phi nA M tk c theta st)
    simp only [collect_worker_steps]
    refine ⟨?_, ?_, ?_⟩
    · rw [h.1]
      simp [collect_step_worker, aggregate_rollout]
      omega
    · rw [h.2.1]
      simp [collect_step_worker, aggregate_rollout]
      omega
    · rw [h.2.2]
      simp [collect_step_worker, aggregate_rollout]
      omega

/-- C8: a rollout produced by rollout_len iterations of either
collection loop (serial or parallel worker), started from the empty
rollout at the task's reset state, carries exactly rollout_len
states, actions and next-states; episode terminations inside the
rollout only swap the environment state for a reset one and never
interrupt the accumulation (the count is reached for every task,
including ones signalling done at any step). -/
theorem c8_rollout_lengths (g : GradModel) (loss_scale phi : ℚ) (nA M : ℕ)
    (tk : GymTask) (c : Controller) (theta : Params) (rollout_len : ℕ) :
    ((collect_serial_steps g loss_scale phi nA M tk c theta rollout_len
        ⟨Rollout.emptyR, tk.reset⟩).rollout.states.length = rollout_len ∧
      (collect_serial_steps g loss_scale phi nA M tk c theta rollout_len
        ⟨Rollout.emptyR, tk.reset⟩).rollout.actions.length = rollout_len ∧
      (collect_serial_steps g loss_scale phi nA M tk c theta rollout_len
        ⟨Rollout.emptyR, tk.reset⟩).rollout.next_states.length = rollout_len) ∧
    ((collect_worker_steps g loss_scale phi nA M tk c theta rollout_len
        ⟨Rollout.emptyR, tk.reset⟩).rollout.states.length = rollout_len ∧
      (collect_worker_steps g loss_scale phi nA M tk c theta rollout_len
        ⟨Rollout.emptyR, tk.reset⟩).rollout.actions.length = rollout_len ∧
      (collect_worker_steps g loss_scale phi nA M tk c theta rollout_len
        ⟨Rollout.emptyR, tk.reset⟩).rollout.next_states.length = rollout_len) := by
  have hs := collect_serial_steps_lengths g loss_scale phi nA M tk c theta rollout_len
    ⟨Rollout.emptyR, tk.reset⟩
  have hw := collect_worker_steps_lengths g loss_scale phi nA M tk c theta rollout_len
    ⟨Rollout.emptyR, tk.reset⟩
  simp only [Rollout.emptyR, List.length_nil, Nat.zero_add] at hs hw
  exact ⟨hs, hw⟩

/-- The adaptation window a parallel-collection worker hands to its
adaptation block at (0-indexed) step t of a rollout started in state
init. -/
def worker_window_at (g : GradModel) (loss_scale phi : ℚ) (nA M : ℕ)
    (tk : GymTask) (c : Controller) (theta : Params) (t : ℕ) (init : CollectSt) : Rollout :=
  pastWindowSlice M (collect_worker_steps g loss_scale phi nA M tk c theta t init).rollout

theorem adaptation_update_eq_none_iff (g : GradModel) (loss_scale phi : ℚ)
    (nA : ℕ) (theta : Params) (traj : Rollout) :
    adaptation_update g loss_scale phi nA theta traj = none ↔ traj.states = [] := by
  unfold adaptation_update
  rcases traj with ⟨sts, acs, nss⟩
  cases sts <;> simp

theorem worker_adaptation_update_eq_none_iff (g : GradModel) (loss_scale phi : ℚ)
    (nA : ℕ) (theta : Params) (traj : Rollout) :
    worker_adaptation_update g loss_scale phi nA theta traj = none ↔ traj.states = [] := by
  unfold worker_adaptation_update
  rcases traj with ⟨sts, acs, nss⟩
  cases sts <;> simp

/-- C5 (amended): during trajectory collection (serial and parallel
worker alike) with M ≥ 1, the adaptation window at step t is the most
recent min(M, t) transitions of the in-progress rollout — the
trailing slice of the t transitions collected so far — and it is
empty (adaptation returning none, so the base parameters are used)
only at the first step t = 0 of each rollout, not throughout the
first M steps. -/
theorem c5_window_is_trailing_slice (g : GradModel) (loss_scale phi : ℚ)
    (nA M : ℕ) (tk : GymTask) (c : Controller) (theta : Params) (t : ℕ)
    (hM : 1 ≤ M) :
    (serial_window_at g loss_scale phi nA M tk c theta t ⟨Rollout.emptyR, tk.reset⟩).states =
        (collect_serial_steps g loss_scale phi nA M tk c theta t
          ⟨Rollout.emptyR, tk.reset⟩).rollout.states.drop (t - M) ∧
      (serial_window_at g loss_scale phi nA M tk c theta t
        ⟨Rollout.emptyR, tk.reset⟩).states.length = min M t ∧
      ((serial_window_at g loss_scale phi nA M tk c theta t
        ⟨Rollout.emptyR, tk.reset⟩).states = [] ↔ t = 0) ∧
      (adaptation_update g loss_scale phi nA theta
          (serial_window_at g loss_scale phi nA M tk c theta t
            ⟨Rollout.emptyR, tk.reset⟩) = none ↔ t = 0) ∧
      (worker_window_at g loss_scale phi nA M tk c theta t
        ⟨Rollout.emptyR, tk.reset⟩).states.length = min M t ∧
      (worker_adaptation_update g loss_scale phi nA theta
          (worker_window_at g loss_scale phi nA M tk c theta t
            ⟨Rollout.emptyR, tk.reset⟩) = none ↔ t = 0) := by
  have hM0 : M ≠ 0 := by omega
  have hlen : (collect_serial_steps g loss_scale phi nA M tk c theta t
      ⟨Rollout.emptyR, tk.reset⟩).rollout.states.length = t := by
    simpa [Rollout.emptyR] using (collect_serial_steps_lengths g loss_scale phi nA M tk c
      theta t ⟨Rollout.emptyR, tk.reset⟩).1
  have hlenw : (collect_worker_steps g loss_scale phi nA M tk c theta t
      ⟨Rollout.emptyR, tk.reset⟩).rollout.states.length = t := by
    simpa [Rollout.emptyR] using (collect_worker_steps_lengths g loss_scale phi nA M tk c
      theta t ⟨Rollout.emptyR, tk.reset⟩).1
  have hser : (serial_window_at g loss_scale phi nA M tk c theta t
      ⟨Rollout.emptyR, tk.reset⟩).states =
      (collect_serial_steps g loss_scale phi nA M tk c theta t
        ⟨Rollout.emptyR, tk.reset⟩).rollout.states.drop (t - M) := by
    unfold serial_window_at pastWindowSlice pySliceLast
    simp only [if_neg hM0, hlen]
  have hwor : (worker_window_at g loss_scale phi nA M tk c theta t
      ⟨Rollout.emptyR, tk.reset⟩).states =
      (collect_worker_steps g loss_scale phi nA M tk c theta t
        ⟨Rollout.emptyR, tk.reset⟩).rollout.states.drop (t - M) := by
    unfold worker_window_at pastWindowSlice pySliceLast
    simp only [if_neg hM0, hlenw]
  have hserlen : (serial_window_at g loss_scale phi nA M tk c theta t
      ⟨Rollout.emptyR, tk.reset⟩).states.length = min M t := by
    rw [hser, List.length_drop, hlen]
    omega
  have hworlen : (worker_window_at g loss_scale phi nA M tk c theta t
      ⟨Rollout.emptyR, tk.reset⟩).states.length = min M t := by
    rw [hwor, List.length_drop, hlenw]
    omega
  have hserempty : (serial_window_at g loss_scale phi nA M tk c theta t
      ⟨Rollout.emptyR, tk.reset⟩).states = [] ↔ t = 0 := by
    rw [← List.length_eq_zero, hserlen]
    omega
  have hworempty : (worker_window_at g loss_scale phi nA M tk c theta t
      ⟨Rollout.emptyR, tk.reset⟩).states = [] ↔ t = 0 := by
    rw [← List.length_eq_zero, hworlen]
    omega
  refine ⟨hser, hserlen, hserempty, ?_, hworlen, ?_⟩
  · rw [adaptation_update_eq_none_iff]
    exact hserempty
  · rw [worker_adaptation_update_eq_none_iff]
    exact hworempty

/-- C5 concrete gadgets: a never-terminating constant task and a
constant controller. -/
def constTask : GymTask := ⟨[0], fun _ _ => ([0], 0, false)⟩

def constController : Controller := ⟨fun _ _ _ => [0]⟩

/-- C5 counterexample: with M = 2, at step t = 1 (within the first M
steps of the rollout) the serial collector's adaptation window is the
one collected transition — not empty — and the adaptation engine
returns specialized parameters rather than none.  This refutes the
claim that the window is empty, with adaptation returning none, for
each of the first M steps. -/
theorem c5_window_nonempty_at_second_step :
    (serial_window_at constGradOne 1 1 0 2 constTask constController [0] 1
        ⟨Rollout.emptyR, constTask.reset⟩).states ≠ [] ∧
      adaptation_update constGradOne 1 1 0 [0]
        (serial_window_at constGradOne 1 1 0 2 constTask constController [0] 1
          ⟨Rollout.emptyR, constTask.reset⟩) ≠ none := by
  have h1 : (serial_window_at constGradOne 1 1 0 2 constTask constController [0] 1
      ⟨Rollout.emptyR, constTask.reset⟩).states = [[0]] := by
    rw [show (1 : ℕ) = 0 + 1 from rfl]
    simp [serial_window_at, collect_serial_steps, collect_step_serial,
      pastWindowSlice, pySliceLast, aggregate_rollout, Rollout.emptyR,
      constTask, constController]
  constructor
  · rw [h1]
    simp
  · rw [Ne, adaptation_update_eq_none_iff, h1]
    simp

/-- C5 witness: in a concrete three-step serial collection with
M = 2, the window at step 3 holds the trailing two transitions and is
not empty. -/
theorem c5_witness :
    1 ≤ 2 ∧
      ((serial_window_at constGradOne 1 1 0 2 constTask constController [0] 3
          ⟨Rollout.emptyR, constTask.reset⟩).states.length = 2 ∧
        ¬ (serial_window_at constGradOne 1 1 0 2 constTask constController [0] 3
            ⟨Rollout.emptyR, constTask.reset⟩).states = []) :=
  ⟨by decide, by
    have h := c5_window_is_trailing_slice constGradOne 1 1 0 2 constTask
      constController [0] 3 (by decide)
    exact ⟨by simpa using h.2.1, by simp [h.2.2.1]⟩⟩

/-- The episode loop of MBMRL._evaluate_serial: from the current
state, plan under theta with no specialized parameters, step the
task, accumulate reward, stop on done.  fuel bounds the
while-not-done loop; the Bool records whether the episode reached
task-signaled termination within the fuel. -/
def eval_episode_serial (tk : GymTask) (c : Controller) (theta : Params) :
    ℕ → Vec → ℚ → ℚ × Bool
  | 0, _, acc => (acc, false)
  | fuel + 1, s, acc =>
    let a := c.plan theta none s
    let res := tk.step s a
    if res.2.2 then (acc + res.2.1, true)
    else eval_episode_serial tk c theta fuel res.1 (acc + res.2.1)

/-- The episode loop of _evaluate_per_thread (the parallel
evaluation worker): textually the same plan/step/sum loop as the
serial evaluator, embedded from its own source lines. -/
def eval_episode_thread (tk : GymTask) (c : Controller) (theta : Params) :
    ℕ → Vec → ℚ → ℚ × Bool
  | 0, _, acc => (acc, false)
  | fuel + 1, s, acc =>
    let a := c.plan theta none s
    let res := tk.step s a
    if res.2.2 then (acc + res.2.1, true)
    else eval_episode_thread tk c theta fuel res.1 (acc + res.2.1)

/-- An episode runner with the trajectory collector's inner shape: at
every step derive specialized parameters from the trailing history of
the episode via adapt, plan under them, step, aggregate the
transition into the history, accumulate reward, stop on done.  With
adapt instantiated to the collection adaptation engine over the
trailing M-window this is the per-step-adaptation episode the claim
describes; with adapt constantly none it is a plain
base-parameter episode. -/
def eval_episode_with (adapt : Rollout → Option Params) (tk : GymTask)
    (c : Controller) (theta : Params) : ℕ → Vec → Rollout → ℚ → ℚ × Bool
  | 0, _, _, acc => (acc, false)
  | fuel + 1, s, hist, acc =>
    let ntd := adapt hist
    let a := c.plan theta ntd s
    let res := tk.step s a
    if res.2.2 then (acc + res.2.1, true)
    else eval_episode_with adapt tk c theta fuel res.1
      (aggregate_rollout hist s a res.1) (acc + res.2.1)

/-- C1 concrete gadgets: a task that terminates on its second step
with the action value as reward, and a controller that acts
differently under specialized parameters. -/
def c1Task : GymTask :=
  ⟨[0], fun s a => (vecAdd s [1], a.headD 0, decide ((1 : ℚ) ≤ s.headD 0))⟩

def c1Controller : Controller :=
  ⟨fun _ ntd _ => match ntd with | none => [0] | some _ => [5]⟩

/-- C1 counterexample: on a concrete two-step episode the evaluator
episode loop (which never adapts) produces total reward 0, while the
collector-style per-step-adaptation episode the claim describes
(adapting from the trailing M = 2 window with the collection
adaptation engine) produces total reward 5.  This refutes the claim
that the evaluator runs episodes with per-step adaptation identical
to the trajectory collector's inner logic. -/
theorem c1_evaluator_differs_from_adaptive_episode :
    eval_episode_serial c1Task c1Controller [0] 5 c1Task.reset 0 ≠
      eval_episode_with
        (fun hist => adaptation_update constGradOne 1 1 0 [0] (pastWindowSlice 2 hist))
        c1Task c1Controller [0] 5 c1Task.reset Rollout.emptyR 0 := by
  have hL : eval_episode_serial c1Task c1Controller [0] 5 c1Task.reset 0 = (0, true) := by
    rw [show (5 : ℕ) = 4 + 1 from rfl]
    rw [eval_episode_serial]
    norm_num [c1Task, c1Controller, vecAdd]
    rw [show (4 : ℕ) = 3 + 1 from rfl]
    rw [eval_episode_serial]
    norm_num [c1Task, c1Controller, vecAdd]
  have hR : eval_episode_with
      (fun hist => adaptation_update constGradOne 1 1 0 [0] (pastWindowSlice 2 hist))
      c1Task c1Controller [0] 5 c1Task.reset Rollout.emptyR 0 = (5, true) := by
    rw [show (5 : ℕ) = 4 + 1 from rfl]
    rw [eval_episode_with]
    norm_num [c1Task, c1Controller, vecAdd, adaptation_update, pastWindowSlice,
      pySliceLast, Rollout.emptyR]
    rw [show (4 : ℕ) = 3 + 1 from rfl]
    rw [eval_episode_with]
    norm_num [c1Task, c1Controller, vecAdd, adaptation_update, adaptIter, adaptStep,
      gradStepFrom, scaleVec, constGradOne, pastWindowSlice, pySliceLast,
      aggregate_rollout, Rollout.emptyR]
  rw [hL, hR]
  norm_num

/-- C1 (amended): both evaluator variants (serial and parallel
per-thread) run each episode with the collector's plan/step/sum
skeleton but without per-step adaptation: every plan call passes no
specialized parameters, the task is stepped until task-signaled
termination, and reward is summed.  Formally, the serial episode loop
coincides with the collector-shaped episode runner instantiated with
the trivial no-adaptation function (for every history), and the
parallel per-thread episode loop coincides with the serial one. -/
theorem c1_evaluators_plan_without_adaptation (tk : GymTask) (c : Controller)
    (theta : Params) :
    ∀ (fuel : ℕ) (s : Vec) (hist : Rollout) (acc : ℚ),
      eval_episode_serial tk c theta fuel s acc =
          eval_episode_with (fun _ => none) tk c theta fuel s hist acc ∧
        eval_episode_thread tk c theta fuel s acc =
          eval_episode_serial tk c theta fuel s acc := by
  intro fuel
  induction fuel with
  | zero =>
    intro s hist acc
    constructor <;> rfl
  | succ fuel ih =>
    intro s hist acc
    constructor
    · rw [eval_episode_serial, eval_episode_with]
      rcases hstep : tk.step s (c.plan theta none s) with ⟨s2, r, done⟩
      cases done
      · simpa using (ih s2 (aggregate_rollout hist s (c.plan theta none s) s2) (acc + r)).1
      · simp
    · rw [eval_episode_thread, eval_episode_serial]
      rcases hstep : tk.step s (c.plan theta none s) with ⟨s2, r, done⟩
      cases done
      · simpa using (ih s2 Rollout.emptyR (acc + r)).2
      · simp

/-- np.mean of a list of scalars. -/
def listMean (l : List ℚ) : ℚ := l.sum / (l.length : ℚ)

/-- The per-task episode rewards of MBMRL._evaluate_serial: exactly
range(5) episodes per task, each run from reset with no adaptation,
each summing reward until task-signaled termination. -/
def evaluate_serial_task_rewards (tk : GymTask) (c : Controller) (theta : Params)
    (fuel : ℕ) : List ℚ :=
  (List.range 5).map (fun _ => (eval_episode_serial tk c theta fuel tk.reset 0).1)

/-- MBMRL._evaluate_serial: one mean episode reward per task. -/
def evaluate_serial (tasks : List GymTask) (c : Controller) (theta : Params)
    (fuel : ℕ) : List ℚ :=
  tasks.map (fun tk => listMean (evaluate_serial_task_rewards tk c theta fuel))

/-- The dispatch condition of MBMRL.evaluate: the parallel evaluator
runs iff num_threads > 1 and eval_sample_num > 1 (Python ints
modelled as ℤ). -/
def evaluate_uses_parallel (num_threads eval_sample_num : ℤ) : Bool :=
  decide (1 < num_threads) && decide (1 < eval_sample_num)

/-- _evaluate_parallel launches one worker process per
range(eval_sample_num). -/
def evaluate_parallel_worker_count (eval_sample_num : ℤ) : ℕ :=
  eval_sample_num.toNat

/-- Worker processes launched by one MBMRL.evaluate call: those of
_evaluate_parallel on the parallel branch, none on the serial
branch. -/
def evaluate_worker_count (num_threads eval_sample_num : ℤ) : ℕ :=
  if evaluate_uses_parallel num_threads eval_sample_num then
    evaluate_parallel_worker_count eval_sample_num
  else 0

/-- C10: MBMRL.evaluate dispatches to the parallel evaluator exactly
when num_threads > 1 and eval_sample_num > 1; in every other case
(including num_threads > 1 with eval_sample_num = 1) no worker
process is launched and the serial evaluator runs, which performs
exactly 5 episodes per task and returns one mean per task. -/
theorem c10_evaluate_dispatch (num_threads eval_sample_num : ℤ)
    (tk : GymTask) (c : Controller) (theta : Params) (fuel : ℕ)
    (tasks : List GymTask) :
    (evaluate_uses_parallel num_threads eval_sample_num = true ↔
        1 < num_threads ∧ 1 < eval_sample_num) ∧
      evaluate_worker_count num_threads eval_sample_num =
        (if 1 < num_threads ∧ 1 < eval_sample_num then eval_sample_num.toNat else 0) ∧
      (evaluate_serial_task_rewards tk c theta fuel).length = 5 ∧
      (evaluate_serial tasks c theta fuel).length = tasks.length := by
  refine ⟨?_, ?_, ?_, ?_⟩
  · simp [evaluate_uses_parallel]
  · by_cases h1 : 1 < num_threads <;> by_cases h2 : 1 < eval_sample_num <;>
      simp [evaluate_worker_count, evaluate_uses_parallel,
        evaluate_parallel_worker_count, h1, h2]
  · simp [evaluate_serial_task_rewards]
  · simp [evaluate_serial]

/-- The mutable algorithm state one train/debug iteration touches. -/
structure AlgoState where
  dataset : List Rollout
  theta : Params
  phi : ℚ
  theta_loss : ℚ
  eval_rewards : List ℚ
  n_task_steps : ℕ
  n_model_steps : ℕ
  n_rollouts : ℕ
deriving Repr

/-- The configuration and collaborator oracles one train/debug
iteration consumes: frequencies and sizes from the configuration, and
the collection, shuffling, window-sampling, optimizer-stepping and
evaluation collaborators as functions of exactly the data the source
passes them (their randomness folded into the oracle). collect
returns the rollouts plus the model-step and task-step counter
increments the collection reports. -/
structure IterEnv where
  task_sample_frequency : ℕ
  task_sample_num : ℕ
  eval_frequency : ℕ
  M : ℕ
  adaptation_update_num : ℕ
  loss_scale : ℚ
  dataset_size : ℕ
  lossModel : LossModel
  collect : Params → ℚ → List Rollout × ℕ × ℕ
  shuffle : List Rollout → List Rollout
  sampleTraj : List Rollout → ℕ → Rollout
  metaStep : Params → ℚ → ℚ → Params × ℚ
  evalRewards : Params → List ℚ

/-- Model-forward-evaluation count of one _adaptation_update call:
none on an empty window, otherwise one per loss computation. -/
def adaptation_model_steps (nA : ℕ) (traj : Rollout) : ℕ :=
  if traj.states.isEmpty then 0 else nA + 1

/-- Model-forward-evaluation count of one adaptation-phase sample:
the adaptation call plus the final post-adaptation loss. -/
def meta_sample_model_steps (nA M : ℕ) (traj : Rollout) : ℕ :=
  adaptation_model_steps nA (rolloutTake M traj) + 1

/-- The adaptation phase shared verbatim by MBMRL.train and
MBMRL.debug: task_sample_num samples, each contributing one
post-adaptation loss; theta_loss is their mean. -/
def adaptation_phase_loss (env : IterEnv) (dataset : List Rollout)
    (theta : Params) (phi : ℚ) : ℚ :=
  listMean ((List.range env.task_sample_num).map (fun j =>
    metaSampleLoss env.lossModel env.loss_scale phi env.adaptation_update_num env.M
      theta (env.sampleTraj dataset j)))

/-- The model-step counter increment of the shared adaptation
phase. -/
def adaptation_phase_model_steps (env : IterEnv) (dataset : List Rollout) : ℕ :=
  ((List.range env.task_sample_num).map (fun j =>
    meta_sample_model_steps env.adaptation_update_num env.M (env.sampleTraj dataset j))).sum

/-- One iteration of MBMRL.debug: every task_sample_frequency
iterations collect rollouts, extend the bounded dataset and shuffle
it; run the adaptation phase; meta-update theta and phi from
theta_loss; every eval_frequency iterations evaluate.  The
_n_rollouts_total counter is never incremented here. -/
def debug_iteration (env : IterEnv) (i : ℕ) (s : AlgoState) : AlgoState :=
  let s1 :=
    if i % env.task_sample_frequency = 0 then
      let cres := env.collect s.theta s.phi
      { s with dataset := env.shuffle (dequeExtend env.dataset_size s.dataset cres.1),
               n_model_steps := s.n_model_steps + cres.2.1,
               n_task_steps := s.n_task_steps + cres.2.2 }
    else s
  let tl := adaptation_phase_loss env s1.dataset s1.theta s1.phi
  let dm := adaptation_phase_model_steps env s1.dataset
  let ms := env.metaStep s1.theta s1.phi tl
  let s2 := { s1 with theta := ms.1, phi := ms.2, theta_loss := tl,
                      n_model_steps := s1.n_model_steps + dm }
  if i % env.eval_frequency = 0 then { s2 with eval_rewards := env.evalRewards ms.1 }
  else s2

/-- One iteration of MBMRL.train (its algorithmic effects; logging,
timing stamps and checkpointing are external collaborator calls):
identical to debug_iteration except that the collection phase
additionally increments _n_rollouts_total by one. -/
def train_iteration (env : IterEnv) (i : ℕ) (s : AlgoState) : AlgoState :=
  let s1 :=
    if i % env.task_sample_frequency = 0 then
      let cres := env.collect s.theta s.phi
      { s with dataset := env.shuffle (dequeExtend env.dataset_size s.dataset cres.1),
               n_model_steps := s.n_model_steps + cres.2.1,
               n_task_steps := s.n_task_steps + cres.2.2,
               n_rollouts := s.n_rollouts + 1 }
    else s
  let tl := adaptation_phase_loss env s1.dataset s1.theta s1.phi
  let dm := adaptation_phase_model_steps env s1.dataset
  let ms := env.metaStep s1.theta s1.phi tl
  let s2 := { s1 with theta := ms.1, phi := ms.2, theta_loss := tl,
                      n_model_steps := s1.n_model_steps + dm }
  if i % env.eval_frequency = 0 then { s2 with eval_rewards := env.evalRewards ms.1 }
  else s2

/-- C9: a debug iteration leaves the _n_rollouts_total counter
unchanged, while a train iteration increments it by one exactly when
the iteration performs a collection phase; every other component of
the resulting state (dataset, theta, phi, theta_loss, eval_rewards,
task-step and model-step counters) is identical between the two
paths. -/
theorem c9_train_debug_frame (env : IterEnv) (i : ℕ) (s : AlgoState) :
    (debug_iteration env i s).n_rollouts = s.n_rollouts ∧
      train_iteration env i s =
        { debug_iteration env i s with
          n_rollouts :=
            s.n_rollouts + (if i % env.task_sample_frequency = 0 then 1 else 0) } := by
  rcases s with ⟨ds, th, ph, tl0, ev, nts, nms, nr⟩
  by_cases hc : i % env.task_sample_frequency = 0 <;>
    by_cases he : i % env.eval_frequency = 0 <;>
      simp [debug_iteration, train_iteration, hc, he]
